import Mathlib

/-!
Verification of the solardata repository (runner.py and src/solar_reader.py).

The development shallowly embeds the program: pure parsing code becomes Lean
functions on strings, network calls become oracle parameters (functions
supplying the outcome of each HTTP request or probe), and the polling loops
become fuel-indexed recursions over per-cycle observation streams.  Machine
floats are modelled by exact rationals; exceptions by `Except`/`Option`.
-/

/-! ## Metric extractor (src/solar_reader.py)

`number_pattern = re.compile(r"([\d.]+)")` and the three extraction methods
`get_wh_production`, `get_current_watt_production`, `get_mi_online`.
The methods first fetch a page and locate a text node with an xpath; the
embedding starts from that text node (`data[0]`), which is what the claims
quantify over. -/

/-- Character class of the regex `[\d.]`: a decimal digit or a dot. -/
def isDigitOrDot (c : Char) : Bool := c.isDigit || c == '.'

/-- Helper for `findall`: accumulates the current run (reversed) in `acc` and
emits maximal runs of `[\d.]` characters, exactly as
`number_pattern.findall` returns all non-overlapping maximal matches of
`([\d.]+)` scanning left to right. -/
def runsAux : List Char → List Char → List (List Char)
  | [], acc => if acc.isEmpty then [] else [acc.reverse]
  | c :: cs, acc =>
    if isDigitOrDot c then
      runsAux cs (c :: acc)
    else if acc.isEmpty then
      runsAux cs []
    else
      acc.reverse :: runsAux cs []

/-- Model of `number_pattern.findall(text)`: the list of maximal runs of
digits and dots occurring in `text`, in order. -/
def findall (text : String) : List (List Char) := runsAux text.toList []

/-- Numeric value of a digit string, most significant digit first
(`natOfDigits ['2','0'] = 20`); the empty list denotes 0. -/
def natOfDigits (ds : List Char) : Nat :=
  ds.foldl (fun n c => n * 10 + (c.toNat - 48)) 0

/-- Splits a character list at the first occurrence of `sep`: returns the
prefix before it and, when `sep` occurs, the remainder after it. -/
def splitFirst (sep : Char) : List Char → List Char × Option (List Char)
  | [] => ([], none)
  | c :: cs =>
    if c == sep then ([], some cs)
    else
      let r := splitFirst sep cs
      (c :: r.1, r.2)

/-- Model of Python `float(run)` restricted to the strings `number_pattern`
can capture (runs of digits and dots, which is the only place the source
applies it).  Such a run parses exactly when it holds at most one dot and at
least one digit (`float("1.")`, `float(".5")` succeed; `float(".")`,
`float("1.2.3")` raise `ValueError`); the value is the usual decimal value,
returned as an exact rational. -/
def pyFloatRun (r : List Char) : Option ℚ :=
  if r.all isDigitOrDot = true ∧ r.any Char.isDigit = true ∧ r.count '.' ≤ 1 then
    match splitFirst '.' r with
    | (ds, none) => some (natOfDigits ds : ℚ)
    | (as, some bs) => some ((natOfDigits as : ℚ) + (natOfDigits bs : ℚ) / (10 : ℚ) ^ bs.length)
  else none

/-- Model of Python `int(float_value)`: truncation toward zero. -/
def pyTrunc (q : ℚ) : Int := if q < 0 then ⌈q⌉ else ⌊q⌋

/-- Model of Python `int(text)` as applied to a page text node: optional
surrounding whitespace, an optional sign, then a nonempty digit string;
anything else raises `ValueError` (`none`). -/
def pyIntStr (s : String) : Option Int :=
  let cs := ((s.toList.dropWhile Char.isWhitespace).reverse.dropWhile Char.isWhitespace).reverse
  match cs with
  | '-' :: ds => if !ds.isEmpty && ds.all Char.isDigit then some (-(natOfDigits ds : Int)) else none
  | '+' :: ds => if !ds.isEmpty && ds.all Char.isDigit then some (natOfDigits ds : Int) else none
  | ds => if !ds.isEmpty && ds.all Char.isDigit then some (natOfDigits ds : Int) else none

/-- Bool test for `p : List Char` occurring as a prefix of the first list. -/
def startsWithChars : List Char → List Char → Bool
  | _, [] => true
  | [], _ :: _ => false
  | c :: cs, p :: ps => (c == p) && startsWithChars cs ps

/-- Bool test for the second list occurring contiguously in the first. -/
def containsSub : List Char → List Char → Bool
  | [], pat => pat.isEmpty
  | c :: cs, pat => startsWithChars (c :: cs) pat || containsSub cs pat

/-- Model of the Python membership test `"kW" in text`. -/
def containskW (text : String) : Bool := containsSub text.toList ['k', 'W']

deriving instance DecidableEq for Except

/-- Exceptions that the extraction methods can raise: `indexError` models
`match[0]` on an empty `findall` result (only `ValueError` is caught in the
source), `valueError` models an uncaught `int(text)` failure in
`get_mi_online`. -/
inductive ExtractErr where
  | indexError
  | valueError
deriving DecidableEq

/-- Model of `SolarReader.get_wh_production` (lines 111-130) from the located
text node on: take the first `number_pattern` match (`IndexError` when there
is none), `float` it (`ValueError` is caught and `0` returned), multiply by
1000 when the text contains `"kW"`, and truncate with `int`. -/
def get_wh_production (text : String) : Except ExtractErr Int :=
  match findall text with
  | [] => .error .indexError
  | m0 :: _ =>
    match pyFloatRun m0 with
    | none => .ok 0
    | some v => .ok (pyTrunc (if containskW text then v * 1000 else v))

/-- Model of `SolarReader.get_current_watt_production` (lines 132-150) from
the located text node on: same as `get_wh_production` but without the final
`int` truncation. -/
def get_current_watt_production (text : String) : Except ExtractErr ℚ :=
  match findall text with
  | [] => .error .indexError
  | m0 :: _ =>
    match pyFloatRun m0 with
    | none => .ok 0
    | some v => .ok (if containskW text then v * 1000 else v)

/-- Model of `SolarReader.get_mi_online` (lines 152-168) from the located
text node on: `int(data[0])`, with no unit conversion and no fallback; a
parse failure propagates. -/
def get_mi_online (text : String) : Except ExtractErr Int :=
  match pyIntStr text with
  | none => .error .valueError
  | some n => .ok n

/-! ## Clock (runner.py, `SolarData.is_past_noon`) -/

/-- A wall-clock instant as `datetime.datetime.now()` exposes it; only the
fields the program reads are kept. -/
structure ClockTime where
  hour : Nat
  minute : Nat
  second : Nat

/-- Model of `SolarData.is_past_noon` (runner.py lines 32-36):
`return dt.hour > 12`. -/
def is_past_noon (t : ClockTime) : Bool := decide (t.hour > 12)

/-! ## Device locator and resilient client (src/solar_reader.py)

`SolarReader.get_ip_address` and `SolarReader.get_response`.  The network is
an oracle: `probe i` is the outcome of `requests.get('http://BASE.i', timeout=2)`
during a scan, `tagMatch body` is whether `re.search(self._tag, body)` finds a
match, and `gets k` is the body of the k-th plain `requests.get` issued by
`get_response` (`none` modelling `requests.ConnectionError`).  Each model
returns, besides its result, the trace of network calls it made. -/

/-- The fields of `SolarReader` that drive control flow: `_using_static_ip`,
`_ip_address` and `_base_ip_range`. -/
structure SolarReaderState where
  usingStaticIp : Bool
  ipAddress : String
  baseIpRange : String
deriving DecidableEq

/-- Outcome of one scan probe: a response body, `requests.ConnectionError`,
or `requests.Timeout`. -/
inductive ProbeRes where
  | ok (body : String)
  | connError
  | timeout
deriving DecidableEq

/-- Record of one probe issued by the scan: the candidate index and the
`timeout=` argument passed to `requests.get`. -/
structure ProbeCall where
  idx : Nat
  timeoutSec : Nat
deriving DecidableEq

/-- The candidate address `"{}.{}".format(self._base_ip_range, i)`. -/
def candidateIp (base : String) (i : Nat) : String := base ++ "." ++ toString i

/-- Whether probing candidate `i` both answers and matches the tag. -/
def probeHit (tagMatch : String → Bool) (probe : Nat → ProbeRes) (i : Nat) : Bool :=
  match probe i with
  | .ok body => tagMatch body
  | .connError => false
  | .timeout => false

/-- Model of the `for i in range(0, 256)` loop of `get_ip_address`
(solar_reader.py lines 64-71): probe candidate `i` with `timeout=2`; on a
response whose body matches the tag return the candidate address; on
`ConnectionError` or `Timeout` continue with the next candidate; after the
range is exhausted fall through (Python's implicit `None`).  The second
component is the trace of probes issued. -/
def scanLoop (tagMatch : String → Bool) (probe : Nat → ProbeRes) (base : String) :
    Nat → Nat → Option String × List ProbeCall
  | _, 0 => (none, [])
  | i, rem+1 =>
    match probe i with
    | .ok body =>
      if tagMatch body then
        (some (candidateIp base i), [⟨i, 2⟩])
      else
        let r := scanLoop tagMatch probe base (i+1) rem
        (r.1, ⟨i, 2⟩ :: r.2)
    | .connError =>
      let r := scanLoop tagMatch probe base (i+1) rem
      (r.1, ⟨i, 2⟩ :: r.2)
    | .timeout =>
      let r := scanLoop tagMatch probe base (i+1) rem
      (r.1, ⟨i, 2⟩ :: r.2)

/-- Model of `SolarReader.get_ip_address` (lines 50-71): in static mode it
returns the stored address without touching the network; in scan mode it
sweeps candidates 0..255 once. -/
def get_ip_address (st : SolarReaderState) (tagMatch : String → Bool)
    (probe : Nat → ProbeRes) : Option String × List ProbeCall :=
  if st.usingStaticIp then (some st.ipAddress, [])
  else scanLoop tagMatch probe st.baseIpRange 0 256

/-- Spec-side companion of the scan: the first index in `[i, i+rem)` whose
probe answers and matches the tag.  Stated from the spec's words ("the first
candidate whose response body contains the configured DiscoveryTag") to be
compared with `scanLoop`. -/
def firstHitFrom (tagMatch : String → Bool) (probe : Nat → ProbeRes) : Nat → Nat → Option Nat
  | _, 0 => none
  | i, rem+1 =>
    if probeHit tagMatch probe i then some i else firstHitFrom tagMatch probe (i+1) rem

/-- Number of probes the scan issues before stopping (hit or exhaustion). -/
def scanSteps (tagMatch : String → Bool) (probe : Nat → ProbeRes) : Nat → Nat → Nat
  | _, 0 => 0
  | i, rem+1 =>
    if probeHit tagMatch probe i then 1 else scanSteps tagMatch probe (i+1) rem + 1

/-- Errors `get_response` can raise: a propagated
`requests.ConnectionError`, or the `RuntimeError("A seemingly valid IP
address failed.")` raised when re-resolution finds no device. -/
inductive GetErr where
  | connError
  | badIp
deriving DecidableEq

/-- Network events of the resilient client: an HTTP GET against an address,
or an invocation of `get_ip_address`. -/
inductive ClientEv where
  | httpGet (addr path : String)
  | resolveCall
deriving DecidableEq

/-- Result of one `get_response` call: the returned response or raised
error, the reader state afterwards, and the trace of client events. -/
structure GetResult where
  result : Except GetErr String
  state : SolarReaderState
  events : List ClientEv

/-- Model of `SolarReader.get_response` (lines 88-109): GET the current
address; on `ConnectionError`, re-raise in static mode, otherwise call
`get_ip_address` once; if it yields an address, store it and retry the GET
exactly once (its outcome, success or `ConnectionError`, is final),
otherwise raise `RuntimeError`. -/
def get_response (st : SolarReaderState) (path : String) (gets : Nat → Option String)
    (tagMatch : String → Bool) (probe : Nat → ProbeRes) : GetResult :=
  match gets 0 with
  | some body => ⟨.ok body, st, [.httpGet st.ipAddress path]⟩
  | none =>
    if st.usingStaticIp then
      ⟨.error .connError, st, [.httpGet st.ipAddress path]⟩
    else
      match (get_ip_address st tagMatch probe).1 with
      | some newIp =>
        ⟨(match gets 1 with
           | some body => Except.ok body
           | none => Except.error GetErr.connError),
         ⟨st.usingStaticIp, newIp, st.baseIpRange⟩,
         [.httpGet st.ipAddress path, .resolveCall, .httpGet newIp path]⟩
      | none =>
        ⟨.error .badIp, st, [.httpGet st.ipAddress path, .resolveCall]⟩

/-- Whether a client event is an HTTP GET. -/
def isHttpGet : ClientEv → Bool
  | .httpGet _ _ => true
  | .resolveCall => false

/-- Number of HTTP GETs in a client trace. -/
def getCount (evs : List ClientEv) : Nat := evs.countP isHttpGet

/-- Number of `get_ip_address` invocations in a client trace. -/
def resolveCount (evs : List ClientEv) : Nat := evs.count ClientEv.resolveCall

/-! ## Polling state machine (runner.py)

`SolarData.wait_on_sunrise`, `SolarData.main_loop` and `SolarData.run`.  The
environment supplies one `CycleObs` per loop iteration: the outcomes of the
`is_online()` call in the `while` condition, the `is_past_noon()` value
during the cycle, the `is_online()` call in the morning-warning check, the
three metric reads and the sheet write of the `try` block.  Fuel bounds the
observed prefix of the infinite loop; exhausting it models external
termination, never a decision of the program. -/

/-- Errors that steady-state operations can raise: a connection failure, a
metric text that does not parse, or a sheet write failure. -/
inductive RdErr where
  | deviceUnreachable
  | malformedReading
  | sinkWriteFailed
deriving DecidableEq

/-- Model of `SolarReader.is_online` (solar_reader.py lines 46-48):
`return self.get_mi_online() > 0`, applied to an obtained count. -/
def is_online (mi : Int) : Bool := decide (mi > 0)

/-- Observations available to one iteration of `main_loop`. -/
structure CycleObs where
  condMi : Except RdErr Int
  pastNoon : Bool
  warnMi : Except RdErr Int
  whRead : Except RdErr Int
  miRead : Except RdErr Int
  wattsRead : Except RdErr ℚ
  sinkWrite : Except RdErr Unit

/-- The `try` block of one cycle (runner.py lines 55-60): read energy,
inverter count and power, then update the sheet row; the first raised error
short-circuits the rest of the block. -/
def cycleBody (o : CycleObs) : Except RdErr Unit := do
  let _wh ← o.whRead
  let _mi ← o.miRead
  let _watts ← o.wattsRead
  o.sinkWrite

/-- How a run of `main_loop` ends within the observed prefix: a clean exit
of the `while` loop at a cycle, an exception propagating out of `main_loop`
at a cycle, or fuel exhaustion (still looping). -/
inductive LoopOutcome where
  | clean (exitCycle : Nat)
  | raised (atCycle : Nat)
  | fuelOut
deriving DecidableEq

/-- Model of `SolarData.main_loop` (runner.py lines 38-66).  Each iteration:
the `while` condition calls `is_online()` (an error there propagates) and,
if needed, `is_past_noon()`; inside the body the morning-warning check calls
`is_past_noon()` and possibly `is_online()` again (an error there also
propagates, being outside the `try`); the `try` block is executed and any
error in it is caught (`except Exception`), after which the loop sleeps and
re-checks the condition. -/
def main_loop (env : Nat → CycleObs) : Nat → Nat → LoopOutcome
  | 0, _ => .fuelOut
  | fuel+1, i =>
    match (env i).condMi with
    | .error _ => .raised i
    | .ok mi =>
      if is_online mi || !(env i).pastNoon then
        if !(env i).pastNoon then
          match (env i).warnMi with
          | .error _ => .raised i
          | .ok _ =>
            let _r := cycleBody (env i)
            main_loop env fuel (i+1)
        else
          let _r := cycleBody (env i)
          main_loop env fuel (i+1)
      else .clean i

/-- An error-free observation stream: within cycle `i` every call returns,
the inverter count is `mi i`, and `is_past_noon()` is `noon i`. -/
def pureEnv (mi : Nat → Int) (noon : Nat → Bool) : Nat → CycleObs :=
  fun i => ⟨.ok (mi i), noon i, .ok (mi i), .ok 0, .ok (mi i), .ok 0, .ok ()⟩

/-- Model of `SolarData.wait_on_sunrise` (runner.py lines 26-30): re-check
the inverter count every 600 s until the system is online; returns the index
of the first check that observed the system online (fuel exhaustion models
external termination while still waiting). -/
def wait_on_sunrise (mi : Nat → Int) : Nat → Nat → Option Nat
  | 0, _ => none
  | fuel+1, i => if is_online (mi i) then some i else wait_on_sunrise mi fuel (i+1)

/-- The phases `SolarData.run` enters, in order: the sunrise wait loop, the
main (ACTIVE) loop, or the "Program was started after sunset. Shutting
down." log followed by direct termination. -/
inductive RunEv where
  | sunriseWaitEntered
  | activeEntered
  | sunsetShutdownLog
deriving DecidableEq

/-- Model of `SolarData.run` (runner.py lines 68-91): if `is_online()` at
startup, enter `main_loop` directly; otherwise if it is not past noon, enter
`wait_on_sunrise` and then `main_loop`; otherwise log the after-sunset
warning and terminate.  Returns the phases entered in order and, when the
main loop ran, its outcome.  `startMi` is the count observed by the startup
check, `waitMi` the counts observed inside `wait_on_sunrise`, `env` the
observations of `main_loop`. -/
def run (startMi : Int) (noonAtStart : Bool) (waitMi : Nat → Int) (waitFuel : Nat)
    (env : Nat → CycleObs) (loopFuel : Nat) : List RunEv × Option LoopOutcome :=
  if is_online startMi then
    ([.activeEntered], some (main_loop env loopFuel 0))
  else if !noonAtStart then
    match wait_on_sunrise waitMi waitFuel 0 with
    | some _ => ([.sunriseWaitEntered, .activeEntered], some (main_loop env loopFuel 0))
    | none => ([.sunriseWaitEntered], none)
  else
    ([.sunsetShutdownLog], none)

/-- Whether an `Except` holds a value (the modelled call returned without
raising). -/
def isOkE {ε α : Type} : Except ε α → Bool
  | .ok _ => true
  | .error _ => false

/-! ## Lemmas about the extractor -/

/-- The helper `runsAux` yields no run exactly when no remaining character is
in the `[\d.]` class and no run is in progress. -/
lemma runsAux_eq_nil_iff (s : List Char) : ∀ acc,
    runsAux s acc = [] ↔ (∀ c ∈ s, isDigitOrDot c = false) ∧ acc = [] := by
  induction s with
  | nil =>
    intro acc
    cases acc <;> simp [runsAux]
  | cons c cs ih =>
    intro acc
    cases h : isDigitOrDot c with
    | true =>
      rw [show runsAux (c :: cs) acc = runsAux cs (c :: acc) from by simp [runsAux, h], ih]
      simp [h]
    | false =>
      cases acc with
      | nil =>
        rw [show runsAux (c :: cs) [] = runsAux cs [] from by simp [runsAux, h], ih]
        simp [h]
      | cons a as =>
        rw [show runsAux (c :: cs) (a :: as) = (a :: as).reverse :: runsAux cs [] from by
          simp [runsAux, h]]
        simp

/-- Every character of every run produced by `runsAux` comes from the input
or the pending accumulator, so a digit-free input yields digit-free runs. -/
lemma runsAux_no_digit (s : List Char) : ∀ acc,
    (∀ c ∈ s, c.isDigit = false) → (∀ c ∈ acc, c.isDigit = false) →
    ∀ r ∈ runsAux s acc, ∀ c ∈ r, c.isDigit = false := by
  induction s with
  | nil =>
    intro acc _ hacc r hr c hc
    by_cases ha : acc.isEmpty
    · simp [runsAux, ha] at hr
    · simp only [runsAux, if_neg ha, List.mem_singleton] at hr
      subst hr
      exact hacc c (List.mem_reverse.mp hc)
  | cons d cs ih =>
    intro acc hs hacc r hr c hc
    have hd : d.isDigit = false := hs d (List.mem_cons_self d cs)
    have hs' : ∀ c ∈ cs, c.isDigit = false := fun x hx => hs x (List.mem_cons_of_mem _ hx)
    cases h : isDigitOrDot d with
    | true =>
      rw [show runsAux (d :: cs) acc = runsAux cs (d :: acc) from by simp [runsAux, h]] at hr
      refine ih (d :: acc) hs' ?_ r hr c hc
      intro x hx
      rcases List.mem_cons.mp hx with h1 | h2
      · subst h1; exact hd
      · exact hacc x h2
    | false =>
      cases acc with
      | nil =>
        rw [show runsAux (d :: cs) [] = runsAux cs [] from by simp [runsAux, h]] at hr
        exact ih [] hs' (by simp) r hr c hc
      | cons a as =>
        rw [show runsAux (d :: cs) (a :: as) = (a :: as).reverse :: runsAux cs [] from by
          simp [runsAux, h]] at hr
        rcases List.mem_cons.mp hr with h1 | h2
        · subst h1; exact hacc c (List.mem_reverse.mp hc)
        · exact ih [] hs' (by simp) r h2 c hc

/-- Evaluation rule: no regex match means `IndexError` in `get_wh_production`. -/
lemma get_wh_production_nil (text : String) (hf : findall text = []) :
    get_wh_production text = .error .indexError := by
  unfold get_wh_production
  rw [hf]

/-- Evaluation rule: no regex match means `IndexError` in
`get_current_watt_production`. -/
lemma get_current_watt_production_nil (text : String) (hf : findall text = []) :
    get_current_watt_production text = .error .indexError := by
  unfold get_current_watt_production
  rw [hf]

/-- Evaluation rule: an unparsable first match is caught and zeroed in
`get_wh_production`. -/
lemma get_wh_production_none (text : String) (m0 : List Char) (rest : List (List Char))
    (hf : findall text = m0 :: rest) (hp : pyFloatRun m0 = none) :
    get_wh_production text = .ok 0 := by
  unfold get_wh_production
  rw [hf]
  show (match pyFloatRun m0 with
    | none => Except.ok 0
    | some v => Except.ok (pyTrunc (if containskW text then v * 1000 else v))) = Except.ok 0
  rw [hp]

/-- Evaluation rule: an unparsable first match is caught and zeroed in
`get_current_watt_production`. -/
lemma get_current_watt_production_none (text : String) (m0 : List Char)
    (rest : List (List Char))
    (hf : findall text = m0 :: rest) (hp : pyFloatRun m0 = none) :
    get_current_watt_production text = .ok 0 := by
  unfold get_current_watt_production
  rw [hf]
  show (match pyFloatRun m0 with
    | none => Except.ok 0
    | some v => Except.ok (if containskW text then v * 1000 else v)) = Except.ok 0
  rw [hp]

/-- Evaluation rule: a parsed first match is normalized and truncated in
`get_wh_production`. -/
lemma get_wh_production_some (text : String) (m0 : List Char) (rest : List (List Char))
    (v : ℚ) (hf : findall text = m0 :: rest) (hp : pyFloatRun m0 = some v) :
    get_wh_production text = .ok (pyTrunc (if containskW text then v * 1000 else v)) := by
  unfold get_wh_production
  rw [hf]
  show (match pyFloatRun m0 with
    | none => Except.ok 0
    | some v => Except.ok (pyTrunc (if containskW text then v * 1000 else v)))
      = Except.ok (pyTrunc (if containskW text then v * 1000 else v))
  rw [hp]

/-- Evaluation rule: a parsed first match is normalized in
`get_current_watt_production`. -/
lemma get_current_watt_production_some (text : String) (m0 : List Char)
    (rest : List (List Char)) (v : ℚ)
    (hf : findall text = m0 :: rest) (hp : pyFloatRun m0 = some v) :
    get_current_watt_production text = .ok (if containskW text then v * 1000 else v) := by
  unfold get_current_watt_production
  rw [hf]
  show (match pyFloatRun m0 with
    | none => Except.ok 0
    | some v => Except.ok (if containskW text then v * 1000 else v))
      = Except.ok (if containskW text then v * 1000 else v)
  rw [hp]

/-- A run that `pyFloatRun` accepts contains at least one digit. -/
lemma pyFloatRun_digit {r : List Char} {v : ℚ} (h : pyFloatRun r = some v) :
    r.any Char.isDigit = true := by
  unfold pyFloatRun at h
  by_cases hc : r.all isDigitOrDot = true ∧ r.any Char.isDigit = true ∧ r.count '.' ≤ 1
  · exact hc.2.1
  · rw [if_neg hc] at h
    exact absurd h (by simp)

/-- Values parsed by `pyFloatRun` are non-negative: the regex class `[\d.]`
cannot capture a sign. -/
lemma pyFloatRun_nonneg {r : List Char} {v : ℚ} (h : pyFloatRun r = some v) : 0 ≤ v := by
  unfold pyFloatRun at h
  by_cases hc : r.all isDigitOrDot = true ∧ r.any Char.isDigit = true ∧ r.count '.' ≤ 1
  · rw [if_pos hc] at h
    rcases hsp : splitFirst '.' r with ⟨ds, rest⟩
    rw [hsp] at h
    cases rest with
    | none =>
      simp only [Option.some.injEq] at h
      subst h
      exact Nat.cast_nonneg _
    | some bs =>
      simp only [Option.some.injEq] at h
      subst h
      have h1 : (0 : ℚ) ≤ (natOfDigits ds : ℚ) := Nat.cast_nonneg _
      have h2 : (0 : ℚ) ≤ (natOfDigits bs : ℚ) / (10 : ℚ) ^ bs.length :=
        div_nonneg (Nat.cast_nonneg _) (by positivity)
      linarith
  · rw [if_neg hc] at h
    exact absurd h (by simp)

/-- Truncation toward zero preserves non-negativity. -/
lemma pyTrunc_nonneg {q : ℚ} (h : 0 ≤ q) : 0 ≤ pyTrunc q := by
  unfold pyTrunc
  rw [if_neg (not_lt.mpr h)]
  exact Int.le_floor.mpr (by exact_mod_cast h)

/-- Concrete evaluation of the parser on the run captured from `"1.20 kW"`. -/
lemma pyFloatRun_onetwenty : pyFloatRun ['1', '.', '2', '0'] = some (6/5 : ℚ) := by
  unfold pyFloatRun
  rw [if_pos (by decide),
      show splitFirst '.' ['1', '.', '2', '0'] = (['1'], some ['2', '0']) from by decide]
  show some ((natOfDigits ['1'] : ℚ) + (natOfDigits ['2', '0'] : ℚ) / (10 : ℚ) ^ 2)
      = some (6/5 : ℚ)
  rw [show natOfDigits ['1'] = 1 from by decide,
      show natOfDigits ['2', '0'] = 20 from by decide]
  norm_num

/-! ## Claim C2 -/

/-- C2, counterexample.  The claim states that for every input text with no
digit character the energy and power extractions return 0 and raise no
exception.  On `"abc"` (no digit, and also no dot) `number_pattern.findall`
returns the empty list, so `match[0]` raises an uncaught `IndexError` in
both methods: the source catches only `ValueError`. -/
theorem c2_no_digit_counterexample :
    (∀ c ∈ "abc".toList, c.isDigit = false) ∧
    get_wh_production "abc" = .error .indexError ∧
    get_current_watt_production "abc" = .error .indexError := by
  refine ⟨by decide, by decide, by decide⟩

/-- C2, amended.  For input text with no digit character: if the text
contains at least one `'.'`, the first regex match is a run of dots, its
`float` conversion raises `ValueError`, which is caught, and both methods
return 0 without raising; if the text contains neither a digit nor a dot,
the regex finds no match and `match[0]` raises an uncaught `IndexError`. -/
theorem c2_no_digit_amended (text : String)
    (hnd : ∀ c ∈ text.toList, c.isDigit = false) :
    (text.toList.any (fun c => c == '.') = true →
        get_wh_production text = .ok 0 ∧ get_current_watt_production text = .ok 0) ∧
    (text.toList.any (fun c => c == '.') = false →
        get_wh_production text = .error .indexError ∧
        get_current_watt_production text = .error .indexError) := by
  constructor
  · intro hdot
    have hne : findall text ≠ [] := by
      intro hnil
      have := (runsAux_eq_nil_iff text.toList []).mp hnil
      rcases List.any_eq_true.mp hdot with ⟨c, hc, hceq⟩
      have : isDigitOrDot c = false := this.1 c hc
      simp [isDigitOrDot, hceq] at this
    cases hf : findall text with
    | nil => exact absurd hf hne
    | cons m0 rest =>
      have hm0 : ∀ c ∈ m0, c.isDigit = false := by
        have hmem : m0 ∈ runsAux text.toList [] := by
          rw [show runsAux text.toList [] = findall text from rfl, hf]
          exact List.mem_cons_self m0 rest
        exact runsAux_no_digit text.toList [] hnd (by simp) m0 hmem
      have hpf : pyFloatRun m0 = none := by
        cases hp : pyFloatRun m0 with
        | none => rfl
        | some v =>
          rcases List.any_eq_true.mp (pyFloatRun_digit hp) with ⟨c, hc, hcd⟩
          have := hm0 c hc
          rw [this] at hcd
          exact absurd hcd (by simp)
      exact ⟨get_wh_production_none text m0 rest hf hpf,
             get_current_watt_production_none text m0 rest hf hpf⟩
  · intro hdot
    have hnil : findall text = [] := by
      refine (runsAux_eq_nil_iff text.toList []).mpr ⟨?_, rfl⟩
      intro c hc
      have h1 : c.isDigit = false := hnd c hc
      have h2 : (c == '.') = false := by
        cases h : (c == '.') with
        | false => rfl
        | true =>
          have hany : text.toList.any (fun c => c == '.') = true :=
            List.any_eq_true.mpr ⟨c, hc, h⟩
          rw [hdot] at hany
          exact absurd hany (by simp)
      simp [isDigitOrDot, h1, h2]
    exact ⟨get_wh_production_nil text hnil, get_current_watt_production_nil text hnil⟩

/-- C2, witness for the amended claim at the digit-free text `"a.b"`. -/
theorem c2_no_digit_amended_witness :
    get_wh_production "a.b" = .ok 0 ∧ get_current_watt_production "a.b" = .ok 0 :=
  (c2_no_digit_amended "a.b" (by decide)).1 (by decide)

/-! ## Claim C7 -/

/-- C7.  Whenever the first digit/dot run of the text parses as a float, the
power extraction returns the parsed value multiplied by 1000 when the text
contains the `"kW"` marker and the parsed value unchanged otherwise, and the
energy extraction additionally truncates the normalized value to an
integer. -/
theorem c7_kw_normalization (text : String) (m0 : List Char)
    (rest : List (List Char)) (v : ℚ)
    (h1 : findall text = m0 :: rest) (h2 : pyFloatRun m0 = some v) :
    get_current_watt_production text = .ok (if containskW text then v * 1000 else v) ∧
    get_wh_production text = .ok (pyTrunc (if containskW text then v * 1000 else v)) :=
  ⟨get_current_watt_production_some text m0 rest v h1 h2,
   get_wh_production_some text m0 rest v h1 h2⟩

/-- C7, witness at `"1.20 kW"`: the run `1.20` parses to `6/5`, the marker is
present, so the power value is `1200` and the energy value is `1200`. -/
theorem c7_kw_normalization_witness :
    get_current_watt_production "1.20 kW" = .ok 1200 ∧
    get_wh_production "1.20 kW" = .ok 1200 := by
  have h := c7_kw_normalization "1.20 kW" ['1', '.', '2', '0'] [] (6/5)
    (by decide) pyFloatRun_onetwenty
  have e1 : (if containskW "1.20 kW" then (6/5 : ℚ) * 1000 else (6/5 : ℚ)) = 1200 := by
    rw [if_pos (show containskW "1.20 kW" = true from by decide)]
    norm_num
  have e2 : pyTrunc (1200 : ℚ) = 1200 := by
    unfold pyTrunc
    rw [if_neg (by norm_num)]
    norm_num
  constructor
  · rw [h.1, e1]
  · rw [h.2, e1, e2]

/-! ## Claim C9 -/

/-- C9, counterexample.  The claim states all three extractions are
non-negative whenever they return, but `get_mi_online` is `int(data[0])` and
Python `int` accepts a leading sign: on the text `"-3"` it returns `-3`. -/
theorem c9_nonneg_counterexample :
    get_mi_online "-3" = .ok (-3) ∧ ¬ (0 ≤ (-3 : Int)) := by
  refine ⟨by decide, by decide⟩

/-- C9, amended.  The energy and power extractions are non-negative on every
input on which they return (the regex `([\d.]+)` cannot capture a sign, and
the `kW` normalization multiplies by 1000), but the inverter-count
extraction can return a negative integer. -/
theorem c9_nonneg_amended :
    (∀ text n, get_wh_production text = .ok n → 0 ≤ n) ∧
    (∀ text q, get_current_watt_production text = .ok q → 0 ≤ q) ∧
    (∃ text m, get_mi_online text = .ok m ∧ m < 0) := by
  refine ⟨?_, ?_, ⟨"-3", -3, by decide, by decide⟩⟩
  · intro text n h
    cases hf : findall text with
    | nil => rw [get_wh_production_nil text hf] at h; exact absurd h (by simp)
    | cons m0 rest =>
      cases hp : pyFloatRun m0 with
      | none =>
        rw [get_wh_production_none text m0 rest hf hp] at h
        simp only [Except.ok.injEq] at h
        omega
      | some v =>
        rw [get_wh_production_some text m0 rest v hf hp] at h
        simp only [Except.ok.injEq] at h
        subst h
        refine pyTrunc_nonneg ?_
        by_cases hkw : containskW text = true
        · rw [if_pos hkw]
          exact mul_nonneg (pyFloatRun_nonneg hp) (by norm_num)
        · rw [if_neg hkw]
          exact pyFloatRun_nonneg hp
  · intro text q h
    cases hf : findall text with
    | nil => rw [get_current_watt_production_nil text hf] at h; exact absurd h (by simp)
    | cons m0 rest =>
      cases hp : pyFloatRun m0 with
      | none =>
        rw [get_current_watt_production_none text m0 rest hf hp] at h
        simp only [Except.ok.injEq] at h
        subst h
        norm_num
      | some v =>
        rw [get_current_watt_production_some text m0 rest v hf hp] at h
        simp only [Except.ok.injEq] at h
        subst h
        by_cases hkw : containskW text = true
        · rw [if_pos hkw]
          exact mul_nonneg (pyFloatRun_nonneg hp) (by norm_num)
        · rw [if_neg hkw]
          exact pyFloatRun_nonneg hp

/-- C9, witness for the amended claim: a positive energy reading and the
explicit negative inverter count. -/
theorem c9_nonneg_amended_witness : (0 : Int) ≤ 850 :=
  c9_nonneg_amended.1 "850 W" 850 (by decide)

/-! ## Claim C10 -/

/-- C10.  `is_past_noon` returns true exactly when the wall-clock hour is
strictly greater than 12, so every instant of the 12 o'clock hour (any
minute and second) is treated as not past noon. -/
theorem c10_is_past_noon :
    (∀ t : ClockTime, (is_past_noon t = true ↔ 12 < t.hour)) ∧
    (∀ m s : Nat, is_past_noon ⟨12, m, s⟩ = false) := by
  constructor
  · intro t
    unfold is_past_noon
    exact decide_eq_true_iff
  · intro m s
    unfold is_past_noon
    simp

/-- C10, witness: 13:00:00 is past noon, 12:59:59 is not. -/
theorem c10_is_past_noon_witness :
    is_past_noon ⟨13, 0, 0⟩ = true ∧ is_past_noon ⟨12, 59, 59⟩ = false :=
  ⟨(c10_is_past_noon.1 ⟨13, 0, 0⟩).mpr (by norm_num), c10_is_past_noon.2 59 59⟩

/-! ## Lemmas about the locator and client -/

/-- The scan result is the first matching candidate's address. -/
lemma scanLoop_result (tagMatch : String → Bool) (probe : Nat → ProbeRes)
    (base : String) : ∀ rem i,
    (scanLoop tagMatch probe base i rem).1
      = (firstHitFrom tagMatch probe i rem).map (candidateIp base) := by
  intro rem
  induction rem with
  | zero => intro i; simp [scanLoop, firstHitFrom]
  | succ n ih =>
    intro i
    cases hp : probe i with
    | ok body =>
      cases ht : tagMatch body with
      | true => simp [scanLoop, firstHitFrom, probeHit, hp, ht]
      | false => simp [scanLoop, firstHitFrom, probeHit, hp, ht, ih]
    | connError => simp [scanLoop, firstHitFrom, probeHit, hp, ih]
    | timeout => simp [scanLoop, firstHitFrom, probeHit, hp, ih]

/-- The scan trace probes consecutive candidates starting at `i`, each with
the 2-second timeout. -/
lemma scanLoop_trace (tagMatch : String → Bool) (probe : Nat → ProbeRes)
    (base : String) : ∀ rem i,
    (scanLoop tagMatch probe base i rem).2
      = (List.range' i (scanSteps tagMatch probe i rem)).map
          (fun j => (⟨j, 2⟩ : ProbeCall)) := by
  intro rem
  induction rem with
  | zero => intro i; simp [scanLoop, scanSteps]
  | succ n ih =>
    intro i
    cases hp : probe i with
    | ok body =>
      cases ht : tagMatch body with
      | true => simp [scanLoop, scanSteps, probeHit, hp, ht, List.range']
      | false => simp [scanLoop, scanSteps, probeHit, hp, ht, ih, List.range']
    | connError => simp [scanLoop, scanSteps, probeHit, hp, ih, List.range']
    | timeout => simp [scanLoop, scanSteps, probeHit, hp, ih, List.range']

/-- The scan never issues more probes than the size of the range. -/
lemma scanSteps_le (tagMatch : String → Bool) (probe : Nat → ProbeRes) : ∀ rem i,
    scanSteps tagMatch probe i rem ≤ rem := by
  intro rem
  induction rem with
  | zero => intro i; simp [scanSteps]
  | succ n ih =>
    intro i
    cases h : probeHit tagMatch probe i with
    | true => simp [scanSteps, h]
    | false =>
      simp [scanSteps, h]
      exact ih (i + 1)

/-- Characterization of a successful first-hit search. -/
lemma firstHitFrom_some (tagMatch : String → Bool) (probe : Nat → ProbeRes) : ∀ rem i j,
    firstHitFrom tagMatch probe i rem = some j →
      i ≤ j ∧ j < i + rem ∧ probeHit tagMatch probe j = true ∧
      ∀ l, i ≤ l → l < j → probeHit tagMatch probe l = false := by
  intro rem
  induction rem with
  | zero => intro i j h; exact absurd h (by simp [firstHitFrom])
  | succ n ih =>
    intro i j h
    cases hp : probeHit tagMatch probe i with
    | true =>
      rw [firstHitFrom, if_pos hp] at h
      obtain rfl : i = j := by simpa using h
      exact ⟨le_refl i, by omega, hp, fun l h1 h2 => absurd (lt_of_le_of_lt h1 h2) (lt_irrefl i)⟩
    | false =>
      rw [firstHitFrom, if_neg (by simp [hp])] at h
      obtain ⟨h1, h2, h3, h4⟩ := ih (i + 1) j h
      refine ⟨by omega, by omega, h3, ?_⟩
      intro l hl1 hl2
      rcases Nat.eq_or_lt_of_le hl1 with rfl | hlt
      · exact hp
      · exact h4 l hlt hl2

/-- A hit-free range makes the first-hit search fail. -/
lemma firstHitFrom_none (tagMatch : String → Bool) (probe : Nat → ProbeRes) : ∀ rem i,
    (∀ j, i ≤ j → j < i + rem → probeHit tagMatch probe j = false) →
    firstHitFrom tagMatch probe i rem = none := by
  intro rem
  induction rem with
  | zero => intro i _; simp [firstHitFrom]
  | succ n ih =>
    intro i h
    rw [firstHitFrom, if_neg (by simp [h i (le_refl i) (by omega)])]
    exact ih (i + 1) (fun j h1 h2 => h j (by omega) (by omega))

/-- In scan mode the locator runs the 0..255 sweep. -/
lemma get_ip_address_scan (st : SolarReaderState) (tagMatch : String → Bool)
    (probe : Nat → ProbeRes) (hscan : st.usingStaticIp = false) :
    get_ip_address st tagMatch probe = scanLoop tagMatch probe st.baseIpRange 0 256 := by
  unfold get_ip_address
  rw [hscan]
  rfl

/-- Evaluation rule for `get_response`: connection failure in scan mode with
a successful re-resolution. -/
lemma get_response_retry_eq (st : SolarReaderState) (path : String)
    (gets : Nat → Option String) (tagMatch : String → Bool) (probe : Nat → ProbeRes)
    (newIp : String) (hscan : st.usingStaticIp = false) (hfail : gets 0 = none)
    (hres : (get_ip_address st tagMatch probe).1 = some newIp) :
    get_response st path gets tagMatch probe
      = ⟨(match gets 1 with
          | some body => Except.ok body
          | none => Except.error GetErr.connError),
         ⟨st.usingStaticIp, newIp, st.baseIpRange⟩,
         [.httpGet st.ipAddress path, .resolveCall, .httpGet newIp path]⟩ := by
  unfold get_response
  rw [hfail, hscan, hres]
  rfl

/-- Evaluation rule for `get_response`: connection failure in scan mode with
a failed re-resolution. -/
lemma get_response_resolve_fail_eq (st : SolarReaderState) (path : String)
    (gets : Nat → Option String) (tagMatch : String → Bool) (probe : Nat → ProbeRes)
    (hscan : st.usingStaticIp = false) (hfail : gets 0 = none)
    (hres : (get_ip_address st tagMatch probe).1 = none) :
    get_response st path gets tagMatch probe
      = ⟨.error .badIp, st, [.httpGet st.ipAddress path, .resolveCall]⟩ := by
  unfold get_response
  rw [hfail, hscan, hres]
  rfl

/-- Evaluation rule for `get_response`: connection failure in static mode. -/
lemma get_response_static_fail_eq (st : SolarReaderState) (path : String)
    (gets : Nat → Option String) (tagMatch : String → Bool) (probe : Nat → ProbeRes)
    (hstatic : st.usingStaticIp = true) (hfail : gets 0 = none) :
    get_response st path gets tagMatch probe
      = ⟨.error .connError, st, [.httpGet st.ipAddress path]⟩ := by
  unfold get_response
  rw [hfail, hstatic]
  rfl

/-! ## Claim C6 -/

/-- C6.  In scan mode `get_ip_address` probes candidates `base + "." + i` in
ascending order from 0, at most 256 of them, each with `timeout=2`; errors
and timeouts on individual candidates are swallowed (scanning continues);
the result is the first candidate whose response body matches the tag, and
`None` when no candidate matches. -/
theorem c6_scan_first_match (st : SolarReaderState) (tagMatch : String → Bool)
    (probe : Nat → ProbeRes) (hscan : st.usingStaticIp = false) :
    (∀ ip, (get_ip_address st tagMatch probe).1 = some ip →
        ∃ i, i < 256 ∧ probeHit tagMatch probe i = true ∧
          ip = candidateIp st.baseIpRange i ∧
          ∀ j, j < i → probeHit tagMatch probe j = false) ∧
    ((∀ i, i < 256 → probeHit tagMatch probe i = false) →
        (get_ip_address st tagMatch probe).1 = none) ∧
    (get_ip_address st tagMatch probe).2.length ≤ 256 ∧
    (get_ip_address st tagMatch probe).2
      = (List.range (get_ip_address st tagMatch probe).2.length).map
          (fun j => (⟨j, 2⟩ : ProbeCall)) := by
  rw [get_ip_address_scan st tagMatch probe hscan]
  refine ⟨?_, ?_, ?_, ?_⟩
  · intro ip hip
    rw [scanLoop_result] at hip
    rcases Option.map_eq_some'.mp hip with ⟨i, hfirst, hcand⟩
    obtain ⟨h1, h2, h3, h4⟩ := firstHitFrom_some tagMatch probe 256 0 i hfirst
    exact ⟨i, by omega, h3, hcand.symm, fun j hj => h4 j (Nat.zero_le j) hj⟩
  · intro hnone
    rw [scanLoop_result,
        firstHitFrom_none tagMatch probe 256 0 (fun j _ h2 => hnone j (by omega))]
    rfl
  · rw [scanLoop_trace]
    simp only [List.length_map, List.length_range']
    exact scanSteps_le tagMatch probe 256 0
  · rw [scanLoop_trace]
    simp only [List.length_map, List.length_range']
    rw [← List.range_eq_range']

/-- C6, witness: a network on which every candidate errors yields `None`
after a bounded sweep. -/
theorem c6_scan_first_match_witness :
    (get_ip_address ⟨false, "", "192.168.1"⟩ (fun s => s == "enphase")
        (fun _ => ProbeRes.connError)).1 = none ∧
    (get_ip_address ⟨false, "", "192.168.1"⟩ (fun s => s == "enphase")
        (fun _ => ProbeRes.connError)).2.length ≤ 256 := by
  have h := c6_scan_first_match ⟨false, "", "192.168.1"⟩ (fun s => s == "enphase")
    (fun _ => ProbeRes.connError) rfl
  exact ⟨h.2.1 (fun i _ => rfl), h.2.2.1⟩

/-! ## Claim C5 -/

/-- C5.  In scan mode, when the first GET fails with a connection error, the
client invokes `get_ip_address` exactly once; if it yields an address, the
stored address is updated and the GET is retried exactly once against the
new address, its outcome (body or connection error) being final; if it
yields `None`, the call fails with the `RuntimeError` and no retry GET is
issued. -/
theorem c5_scan_retry (st : SolarReaderState) (path : String)
    (gets : Nat → Option String) (tagMatch : String → Bool) (probe : Nat → ProbeRes)
    (hscan : st.usingStaticIp = false) (hfail : gets 0 = none) :
    resolveCount (get_response st path gets tagMatch probe).events = 1 ∧
    (∀ newIp, (get_ip_address st tagMatch probe).1 = some newIp →
        (get_response st path gets tagMatch probe).state.ipAddress = newIp ∧
        getCount (get_response st path gets tagMatch probe).events = 2 ∧
        (get_response st path gets tagMatch probe).events
          = [.httpGet st.ipAddress path, .resolveCall, .httpGet newIp path] ∧
        (get_response st path gets tagMatch probe).result
          = (match gets 1 with
             | some body => Except.ok body
             | none => Except.error GetErr.connError)) ∧
    ((get_ip_address st tagMatch probe).1 = none →
        (get_response st path gets tagMatch probe).result = .error .badIp ∧
        getCount (get_response st path gets tagMatch probe).events = 1 ∧
        (get_response st path gets tagMatch probe).state = st) := by
  refine ⟨?_, ?_, ?_⟩
  · cases hres : (get_ip_address st tagMatch probe).1 with
    | some newIp =>
      rw [get_response_retry_eq st path gets tagMatch probe newIp hscan hfail hres]
      rfl
    | none =>
      rw [get_response_resolve_fail_eq st path gets tagMatch probe hscan hfail hres]
      rfl
  · intro newIp hres
    rw [get_response_retry_eq st path gets tagMatch probe newIp hscan hfail hres]
    exact ⟨rfl, rfl, rfl, rfl⟩
  · intro hres
    rw [get_response_resolve_fail_eq st path gets tagMatch probe hscan hfail hres]
    exact ⟨rfl, rfl, rfl⟩

/-- C5, witness: with the device answering at candidate 3, a failed first
GET leads to one re-resolution, an address update to `192.168.1.3`, and
exactly two GETs with the retried GET's body returned. -/
theorem c5_scan_retry_witness :
    (get_response ⟨false, "192.168.1.7", "192.168.1"⟩ "/home"
        (fun n => if n = 0 then none else some "page")
        (fun s => s == "enphase")
        (fun i => if i = 3 then ProbeRes.ok "enphase" else ProbeRes.connError)).state.ipAddress
      = "192.168.1.3" ∧
    getCount (get_response ⟨false, "192.168.1.7", "192.168.1"⟩ "/home"
        (fun n => if n = 0 then none else some "page")
        (fun s => s == "enphase")
        (fun i => if i = 3 then ProbeRes.ok "enphase" else ProbeRes.connError)).events = 2 := by
  have h := (c5_scan_retry ⟨false, "192.168.1.7", "192.168.1"⟩ "/home"
      (fun n => if n = 0 then none else some "page")
      (fun s => s == "enphase")
      (fun i => if i = 3 then ProbeRes.ok "enphase" else ProbeRes.connError)
      rfl rfl).2.1 "192.168.1.3" (by decide)
  exact ⟨h.1, h.2.1⟩

/-! ## Claim C8 -/

/-- C8.  In static-address mode a connection failure is propagated
immediately: the error is returned, the state (including the current
address) is unchanged, the trace holds the single failed GET and no
re-resolution; moreover `get_ip_address` itself in static mode returns the
stored address without issuing a single probe. -/
theorem c8_static_no_rescan (st : SolarReaderState) (path : String)
    (gets : Nat → Option String) (tagMatch : String → Bool) (probe : Nat → ProbeRes)
    (hstatic : st.usingStaticIp = true) (hfail : gets 0 = none) :
    (get_response st path gets tagMatch probe).result = .error .connError ∧
    (get_response st path gets tagMatch probe).state = st ∧
    (get_response st path gets tagMatch probe).events = [.httpGet st.ipAddress path] ∧
    resolveCount (get_response st path gets tagMatch probe).events = 0 ∧
    get_ip_address st tagMatch probe = (some st.ipAddress, []) := by
  rw [get_response_static_fail_eq st path gets tagMatch probe hstatic hfail]
  refine ⟨rfl, rfl, rfl, rfl, ?_⟩
  unfold get_ip_address
  rw [hstatic]
  rfl

/-- C8, witness at a concrete static-mode reader with a failing network. -/
theorem c8_static_no_rescan_witness :
    (get_response ⟨true, "10.0.0.9", "10.0.0"⟩ "/production" (fun _ => none)
        (fun _ => true) (fun _ => ProbeRes.connError)).result = .error .connError ∧
    (get_response ⟨true, "10.0.0.9", "10.0.0"⟩ "/production" (fun _ => none)
        (fun _ => true) (fun _ => ProbeRes.connError)).state
      = ⟨true, "10.0.0.9", "10.0.0"⟩ ∧
    get_ip_address ⟨true, "10.0.0.9", "10.0.0"⟩ (fun _ => true)
        (fun _ => ProbeRes.connError) = (some "10.0.0.9", []) := by
  have h := c8_static_no_rescan ⟨true, "10.0.0.9", "10.0.0"⟩ "/production" (fun _ => none)
    (fun _ => true) (fun _ => ProbeRes.connError) rfl rfl
  exact ⟨h.1, h.2.1, h.2.2.2.2⟩

/-! ## Lemmas about the state machine -/

/-- One-step unfolding of `main_loop` over an error-free environment: the
body (whose caught failures cannot influence control flow) is skipped and
the loop either continues or exits on the condition. -/
lemma main_loop_pure_succ (mi : Nat → Int) (noon : Nat → Bool) (fuel i : Nat) :
    main_loop (pureEnv mi noon) (fuel + 1) i
      = if is_online (mi i) || !(noon i) then main_loop (pureEnv mi noon) fuel (i + 1)
        else .clean i := by
  cases h : noon i with
  | true => simp [main_loop, pureEnv, h]
  | false => simp [main_loop, pureEnv, h]

/-- One-step unfolding of `main_loop` when the condition-check and
warning-check reads return: whatever the `try`-block observations (including
failing reads and a failing sheet write), the loop continues or exits purely
on the condition. -/
lemma main_loop_ok_step (env : Nat → CycleObs) (fuel i : Nat) (m : Int) (w : Int)
    (hcm : (env i).condMi = .ok m) (hwm : (env i).warnMi = .ok w) :
    main_loop env (fuel + 1) i
      = if is_online m || !(env i).pastNoon then main_loop env fuel (i + 1)
        else .clean i := by
  cases h : (env i).pastNoon with
  | true => simp [main_loop, hcm, hwm, h]
  | false => simp [main_loop, hcm, hwm, h]

/-- The loop condition as a proposition. -/
lemma loop_cond_iff (m : Int) (b : Bool) :
    (is_online m || !b) = true ↔ (0 < m ∨ b = false) := by
  cases b <;> simp [is_online]

/-- `main_loop` cannot raise when every condition-check and warning-check
read returns, whatever the body observations. -/
lemma main_loop_no_raise (env : Nat → CycleObs)
    (hok : ∀ j, isOkE (env j).condMi = true ∧ isOkE (env j).warnMi = true) :
    ∀ fuel i n, main_loop env fuel i ≠ .raised n := by
  intro fuel
  induction fuel with
  | zero => intro i n h; exact absurd h (by simp [main_loop])
  | succ f ih =>
    intro i n h
    rcases hcm : (env i).condMi with e | m
    · have hk := (hok i).1
      rw [hcm] at hk
      exact absurd hk (by simp [isOkE])
    · rcases hwm : (env i).warnMi with e | w
      · have hk := (hok i).2
        rw [hwm] at hk
        exact absurd hk (by simp [isOkE])
      · rw [main_loop_ok_step env f i m w hcm hwm] at h
        by_cases hc : (is_online m || !(env i).pastNoon) = true
        · rw [if_pos hc] at h
          exact ih (i + 1) n h
        · rw [if_neg hc] at h
          exact absurd h (by simp)

/-- An error raised by the `is_online()` call of the `while` condition
propagates out of `main_loop` at that very cycle. -/
lemma main_loop_raises_cond (env : Nat → CycleObs) (fuel i : Nat) (e : RdErr)
    (hcm : (env i).condMi = .error e) :
    main_loop env (fuel + 1) i = .raised i := by
  simp [main_loop, hcm]

/-- `wait_on_sunrise` returns the first index at which the system is seen
online. -/
lemma wait_on_sunrise_first (mi : Nat → Int) : ∀ fuel i k,
    k < fuel → 0 < mi (i + k) → (∀ j, j < k → mi (i + j) ≤ 0) →
    wait_on_sunrise mi fuel i = some (i + k) := by
  intro fuel
  induction fuel with
  | zero => intro i k hk; omega
  | succ f ih =>
    intro i k hk hon hprev
    cases k with
    | zero =>
      rw [wait_on_sunrise,
          if_pos (show is_online (mi i) = true from by
            simp only [is_online, decide_eq_true_eq]
            simpa using hon)]
      simp
    | succ k' =>
      have h0 : mi i ≤ 0 := by simpa using hprev 0 (by omega)
      rw [wait_on_sunrise,
          if_neg (show ¬ is_online (mi i) = true from by
            simp only [is_online, decide_eq_true_eq]
            omega)]
      have hrec := ih (i + 1) k' (by omega)
        (by rw [show i + 1 + k' = i + (k' + 1) from by omega]; exact hon)
        (fun j hj => by
          rw [show i + 1 + j = i + (j + 1) from by omega]
          exact hprev (j + 1) (by omega))
      rw [hrec, show i + 1 + k' = i + (k' + 1) from by omega]

/-! ## Claim C1 -/

/-- Inverter-count stream for the C1 counterexample: the count parsed on
cycle 0 is negative (the source's own comment records counts dropping below
zero after initialization). -/
def miCx : Nat → Int := fun n => if n = 0 then -1 else 0

/-- Clock stream for the C1 counterexample: every cycle is past noon. -/
def noonCx : Nat → Bool := fun _ => true

/-- C1, counterexample.  The claim says the loop exits exactly when
`inverters_online == 0` and past noon, on the first such cycle.  With the
count `-1` on cycle 0 (past noon), the loop exits immediately at cycle 0:
the condition tests `is_online()`, i.e. `count > 0`, not `count == 0`, and
the first cycle with count exactly 0 would be cycle 1. -/
theorem c1_exit_counterexample :
    main_loop (pureEnv miCx noonCx) 5 0 = .clean 0 ∧
    miCx 0 = -1 ∧ miCx 0 ≠ 0 ∧ noonCx 0 = true ∧ miCx 1 = 0 := by
  refine ⟨by decide, by decide, by decide, rfl, by decide⟩

/-- C1, amended.  Over an error-free environment, `main_loop` started at
cycle `i` exits cleanly at cycle `n` exactly when cycle `n` is the first
cycle at or after `i` whose check observes `inverters_online ≤ 0` together
with `isPastNoon() = true` (and the fuel covers it); in particular the loop
never exits on a cycle whose `isPastNoon()` is false, regardless of the
inverter count. -/
theorem c1_exit_amended (mi : Nat → Int) (noon : Nat → Bool) (fuel i n : Nat) :
    main_loop (pureEnv mi noon) fuel i = .clean n ↔
      (i ≤ n ∧ n - i < fuel ∧ mi n ≤ 0 ∧ noon n = true ∧
       ∀ j, i ≤ j → j < n → (0 < mi j ∨ noon j = false)) := by
  induction fuel generalizing i with
  | zero =>
    constructor
    · intro h; exact absurd h (by simp [main_loop])
    · rintro ⟨h1, h2, _⟩; omega
  | succ f ih =>
    rw [main_loop_pure_succ]
    by_cases hcond : 0 < mi i ∨ noon i = false
    · rw [if_pos ((loop_cond_iff (mi i) (noon i)).mpr hcond), ih]
      constructor
      · rintro ⟨h1, h2, h3, h4, h5⟩
        refine ⟨by omega, by omega, h3, h4, ?_⟩
        intro j hj1 hj2
        rcases Nat.eq_or_lt_of_le hj1 with rfl | hlt
        · exact hcond
        · exact h5 j hlt hj2
      · rintro ⟨h1, h2, h3, h4, h5⟩
        have hne : i ≠ n := by
          rintro rfl
          rcases hcond with hm | hn
          · omega
          · rw [h4] at hn
            exact absurd hn (by simp)
        exact ⟨by omega, by omega, h3, h4, fun j hj1 hj2 => h5 j (by omega) hj2⟩
    · have hneg : ¬ (is_online (mi i) || !(noon i)) = true := fun hc =>
        hcond ((loop_cond_iff (mi i) (noon i)).mp hc)
      rw [if_neg hneg, not_or] at *
      obtain ⟨hm, hn⟩ := hcond
      have hm' : mi i ≤ 0 := by omega
      have hn' : noon i = true := by simpa using hn
      constructor
      · intro h
        have hin : i = n := by simpa using h
        subst hin
        exact ⟨le_refl i, by omega, hm', hn', fun j hj1 hj2 => absurd hj2 (by omega)⟩
      · rintro ⟨h1, h2, h3, h4, h5⟩
        have hin : i = n := by
          rcases Nat.eq_or_lt_of_le h1 with heq | hlt
          · exact heq
          · rcases h5 i (le_refl i) hlt with hm2 | hn2
            · omega
            · rw [hn'] at hn2
              exact absurd hn2 (by simp)
        rw [hin]

/-- C1, witness for the amended claim: count 0 past noon on the very first
check exits at cycle 0. -/
theorem c1_exit_amended_witness :
    main_loop (pureEnv (fun _ => 0) (fun _ => true)) 5 0 = .clean 0 :=
  (c1_exit_amended (fun _ => 0) (fun _ => true) 5 0 0).mpr
    ⟨le_refl 0, by omega, le_refl 0, rfl, fun j hj1 hj2 => absurd hj2 (by omega)⟩

/-! ## Claim C3 -/

/-- Observation stream for the C3 counterexample: cycle 0 is a normal
online cycle; from cycle 1 on, every read raises `DeviceUnreachable`. -/
def envRaiseCx : Nat → CycleObs :=
  fun n =>
    if n = 0 then ⟨.ok 5, true, .ok 5, .ok 100, .ok 5, .ok 50, .ok ()⟩
    else ⟨.error .deviceUnreachable, true, .error .deviceUnreachable,
          .error .deviceUnreachable, .error .deviceUnreachable,
          .error .deviceUnreachable, .error .sinkWriteFailed⟩

/-- C3, counterexample.  The claim says every steady-state error during
ACTIVE is caught at the cycle boundary and the loop continues.  But the
`is_online()` call in the `while` condition is outside the `try`: after one
normal cycle, a `DeviceUnreachable` raised by that check on cycle 1
propagates out of `main_loop` (outcome `raised`), terminating the process
rather than being logged and survived. -/
theorem c3_catch_counterexample :
    main_loop envRaiseCx 5 0 = .raised 1 ∧
    (envRaiseCx 1).condMi = .error .deviceUnreachable := by
  refine ⟨by decide, by decide⟩

/-- C3, amended.  Any error confined to the `try` block (the three metric
reads and the sheet write) is caught and the loop continues: if the
condition-check and warning-check reads return on every cycle, `main_loop`
never raises, whatever the body observations, and a completed cycle hands
control to the next cycle unchanged; but an error raised by the
`is_online()` read of the `while`-condition check itself propagates out of
`main_loop` at that cycle. -/
theorem c3_catch_amended (env : Nat → CycleObs) (fuel i : Nat) :
    ((∀ j, isOkE (env j).condMi = true ∧ isOkE (env j).warnMi = true) →
        ∀ n, main_loop env fuel i ≠ .raised n) ∧
    (∀ m w, (env i).condMi = .ok m → (env i).warnMi = .ok w →
        (is_online m || !(env i).pastNoon) = true →
        main_loop env (fuel + 1) i = main_loop env fuel (i + 1)) ∧
    (∀ e, (env i).condMi = .error e → 0 < fuel → main_loop env fuel i = .raised i) := by
  refine ⟨?_, ?_, ?_⟩
  · intro hok n
    exact main_loop_no_raise env hok fuel i n
  · intro m w hcm hwm hc
    rw [main_loop_ok_step env fuel i m w hcm hwm, if_pos hc]
  · intro e hcm hf
    cases fuel with
    | zero => omega
    | succ f => exact main_loop_raises_cond env f i e hcm

/-- Observation stream for the C3 witness: the condition and warning reads
always return an online count, while every body read and the sheet write
fail on every cycle. -/
def envBodyFailW : Nat → CycleObs :=
  fun _ => ⟨.ok 5, true, .ok 5, .error .malformedReading, .error .deviceUnreachable,
            .error .malformedReading, .error .sinkWriteFailed⟩

/-- C3, witness for the amended claim: with every body read failing, the
loop never raises and each cycle steps to the next. -/
theorem c3_catch_amended_witness :
    main_loop envBodyFailW 3 0 ≠ .raised 0 ∧
    main_loop envBodyFailW 3 0 = main_loop envBodyFailW 2 1 :=
  ⟨(c3_catch_amended envBodyFailW 3 0).1 (fun _ => ⟨rfl, rfl⟩) 0,
   (c3_catch_amended envBodyFailW 2 0).2.1 5 5 rfl rfl rfl⟩

/-! ## Claim C4 -/

/-- C4.  The startup decision of `run`, executed once: an online system
enters the main (ACTIVE) loop directly and never the sunrise wait; an
offline system before noon enters the sunrise wait, which returns at the
first check observing an online count, and then the main loop; an offline
system past noon logs the after-sunset message and terminates without ever
entering the main loop. -/
theorem c4_startup_decision (startMi : Int) (noonAtStart : Bool) (waitMi : Nat → Int)
    (waitFuel : Nat) (env : Nat → CycleObs) (loopFuel : Nat) :
    (0 < startMi →
        (run startMi noonAtStart waitMi waitFuel env loopFuel).1 = [.activeEntered] ∧
        RunEv.sunriseWaitEntered ∉ (run startMi noonAtStart waitMi waitFuel env loopFuel).1) ∧
    (startMi ≤ 0 → noonAtStart = false →
        ∀ k, k < waitFuel → 0 < waitMi k → (∀ j, j < k → waitMi j ≤ 0) →
          wait_on_sunrise waitMi waitFuel 0 = some k ∧
          (run startMi noonAtStart waitMi waitFuel env loopFuel).1
            = [.sunriseWaitEntered, .activeEntered]) ∧
    (startMi ≤ 0 → noonAtStart = true →
        (run startMi noonAtStart waitMi waitFuel env loopFuel).1 = [.sunsetShutdownLog] ∧
        RunEv.activeEntered ∉ (run startMi noonAtStart waitMi waitFuel env loopFuel).1) := by
  refine ⟨?_, ?_, ?_⟩
  · intro h
    have hr : run startMi noonAtStart waitMi waitFuel env loopFuel
        = ([.activeEntered], some (main_loop env loopFuel 0)) := by
      unfold run
      rw [if_pos (show is_online startMi = true from by
        simp only [is_online, decide_eq_true_eq]
        omega)]
    rw [hr]
    exact ⟨rfl, by simp⟩
  · intro h hnoon k hk hon hprev
    have hw := wait_on_sunrise_first waitMi waitFuel 0 k hk (by simpa using hon)
      (fun j hj => by simpa using hprev j hj)
    rw [Nat.zero_add] at hw
    refine ⟨hw, ?_⟩
    have hr : run startMi noonAtStart waitMi waitFuel env loopFuel
        = ([.sunriseWaitEntered, .activeEntered], some (main_loop env loopFuel 0)) := by
      unfold run
      rw [if_neg (show ¬ is_online startMi = true from by
            simp only [is_online, decide_eq_true_eq]
            omega),
          hnoon, hw]
      rfl
    rw [hr]
  · intro h hnoon
    have hr : run startMi noonAtStart waitMi waitFuel env loopFuel
        = ([.sunsetShutdownLog], none) := by
      unfold run
      rw [if_neg (show ¬ is_online startMi = true from by
            simp only [is_online, decide_eq_true_eq]
            omega),
          hnoon]
      rfl
    rw [hr]
    exact ⟨rfl, by simp⟩

/-- C4, witness: offline before noon, with the system first seen online at
the third check, waits and then enters the main loop. -/
theorem c4_startup_decision_witness :
    wait_on_sunrise (fun n => if n = 2 then 3 else 0) 10 0 = some 2 ∧
    (run 0 false (fun n => if n = 2 then 3 else 0) 10
        (pureEnv (fun _ => 1) (fun _ => true)) 3).1
      = [RunEv.sunriseWaitEntered, RunEv.activeEntered] :=
  (c4_startup_decision 0 false (fun n => if n = 2 then 3 else 0) 10
      (pureEnv (fun _ => 1) (fun _ => true)) 3).2.1 (by omega) rfl 2 (by omega)
      (by decide) (fun j hj => by interval_cases j <;> decide)
